import Mathlib

/-!
Verification of the vendor analytics scoring engine
(`src/routes/vendorAnalytics.ts`).

The route handlers fetch SQL aggregate rows and transform them with pure
arithmetic.  We embed those transforms here: one structure per aggregate-row
shape (holding exactly the numeric fields the scoring math reads; identity
and date pass-through fields are omitted), and one Lean function per block
of scoring arithmetic, translated line by line from the handler code.
JavaScript numbers are modelled as rationals; `Math.round` is Lean's
`round` (round half toward positive infinity, which agrees with
`Math.round` on all values arising here), and `Math.round(x*100)/100`
(two-decimal rounding) is `round2` below.
-/

/-- Two-decimal rounding, `Math.round(q * 100) / 100` in the source. -/
def round2 (q : ℚ) : ℚ := (round (q * 100) : ℚ) / 100

namespace Perf

/-- One row of the `performance-scorecard` SQL result (the numeric fields the
scoring math reads: `invoice_count`, `active_months`, `avg_payment_terms`). -/
structure VendorAggregate where
  invoice_count : ℕ
  active_months : ℕ
  avg_payment_terms : ℚ
deriving DecidableEq

/-- `Math.min(100, (vendor.active_months / parseInt(timeframe)) * 100)`. -/
def consistencyScore (v : VendorAggregate) (timeframe : ℕ) : ℚ :=
  min 100 ((v.active_months : ℚ) / (timeframe : ℚ) * 100)

/-- `Math.min(100, (vendor.invoice_count / 50) * 100)`. -/
def volumeScore (v : VendorAggregate) : ℚ :=
  min 100 ((v.invoice_count : ℚ) / 50 * 100)

/-- `vendor.avg_payment_terms > 0 ? Math.max(0, 100 - (vendor.avg_payment_terms - 30)) : 50`. -/
def reliabilityScore (v : VendorAggregate) : ℚ :=
  if 0 < v.avg_payment_terms then max 0 (100 - (v.avg_payment_terms - 30)) else 50

/-- `Math.round((consistencyScore + volumeScore + reliabilityScore) / 3)`:
the overall score is computed from the unrounded sub-scores. -/
def overallScore (v : VendorAggregate) (timeframe : ℕ) : ℤ :=
  round ((consistencyScore v timeframe + volumeScore v + reliabilityScore v) / 3)

/-- The `performanceScore` object of one response row: the rounded sub-scores
together with the overall score. -/
structure PerformanceScore where
  overall : ℤ
  consistency : ℤ
  volume : ℤ
  reliability : ℤ
deriving DecidableEq

/-- The `performanceScore` field the handler builds for one aggregate row. -/
def performanceScore (v : VendorAggregate) (timeframe : ℕ) : PerformanceScore :=
  { overall := overallScore v timeframe
    consistency := round (consistencyScore v timeframe)
    volume := round (volumeScore v)
    reliability := round (reliabilityScore v) }

end Perf

/-- Rounding moves a value by at most 1/2, so rounding two values at distance
at most 1/2 yields integers at distance at most 1. -/
lemma round_dist_le_one (a b : ℚ) (h : |a - b| ≤ 1 / 2) :
    |round a - round b| ≤ 1 := by
  rw [abs_le] at h
  obtain ⟨h1, h2⟩ := h
  rw [round_eq, round_eq]
  have hA : ⌊b + 1 / 2⌋ ≤ ⌊a + 1 / 2 + 1⌋ := Int.floor_le_floor (by linarith)
  rw [Int.floor_add_one] at hA
  have hB : ⌊a + 1 / 2⌋ ≤ ⌊b + 1 / 2 + 1⌋ := Int.floor_le_floor (by linarith)
  rw [Int.floor_add_one] at hB
  rw [abs_le]
  omega

/-- C1 counterexample: on the row `{invoiceCount := 45, activeMonths := 8,
avgPaymentTerms := 30.5}` with timeframe 12 the handler reports sub-scores
67 / 90 / 100 as the claim states, but `overall = 85`, not 86: the overall is
rounded from the unrounded sub-scores `(200/3 + 90 + 99.5) / 3 = 85.38...`. -/
theorem c1_counterexample :
    Perf.performanceScore ⟨45, 8, 30.5⟩ 12 = ⟨85, 67, 90, 100⟩ ∧
    (Perf.performanceScore ⟨45, 8, 30.5⟩ 12).overall ≠ 86 := by
  constructor <;>
    norm_num [Perf.performanceScore, Perf.PerformanceScore.mk.injEq, Perf.overallScore,
      Perf.consistencyScore, Perf.volumeScore, Perf.reliabilityScore, min_def, max_def, round_eq]

/-- C1 amended: on the row `{invoiceCount := 45, activeMonths := 8,
avgPaymentTerms := 30.5}` with timeframe 12, the returned `performanceScore`
has consistency 67, volume 90, reliability 100 and overall 85 (the mean of the
unrounded sub-scores 66.67 / 90 / 99.5, rounded). -/
theorem c1_amended :
    Perf.performanceScore ⟨45, 8, 30.5⟩ 12 =
      { overall := 85, consistency := 67, volume := 90, reliability := 100 } := by
  norm_num [Perf.performanceScore, Perf.PerformanceScore.mk.injEq, Perf.overallScore,
    Perf.consistencyScore, Perf.volumeScore, Perf.reliabilityScore, min_def, max_def, round_eq]

/-- C3 counterexample: on the row `{invoiceCount := 45, activeMonths := 8,
avgPaymentTerms := 30.5}` with timeframe 12 the response reports sub-scores
67 / 90 / 100, and `round((67 + 90 + 100) / 3) = 86`, but the reported overall
is 85: the overall is not the rounded mean of the reported sub-scores. -/
theorem c3_counterexample :
    (Perf.performanceScore ⟨45, 8, 30.5⟩ 12).overall ≠
      round ((((Perf.performanceScore ⟨45, 8, 30.5⟩ 12).consistency : ℚ) +
        ((Perf.performanceScore ⟨45, 8, 30.5⟩ 12).volume : ℚ) +
        ((Perf.performanceScore ⟨45, 8, 30.5⟩ 12).reliability : ℚ)) / 3) := by
  norm_num [Perf.performanceScore, Perf.overallScore,
    Perf.consistencyScore, Perf.volumeScore, Perf.reliabilityScore, min_def, max_def, round_eq]

/-- C3 amended: the reported overall equals the rounded unweighted mean of the
three UNROUNDED sub-scores, and it differs from the rounded mean of the three
rounded sub-scores reported in the same response by at most 1. -/
theorem c3_amended (v : Perf.VendorAggregate) (tf : ℕ) :
    (Perf.performanceScore v tf).overall =
      round ((Perf.consistencyScore v tf + Perf.volumeScore v + Perf.reliabilityScore v) / 3) ∧
    |(Perf.performanceScore v tf).overall -
      round ((((Perf.performanceScore v tf).consistency : ℚ) +
        ((Perf.performanceScore v tf).volume : ℚ) +
        ((Perf.performanceScore v tf).reliability : ℚ)) / 3)| ≤ 1 := by
  refine ⟨rfl, ?_⟩
  have hc := abs_sub_round (Perf.consistencyScore v tf)
  have hv := abs_sub_round (Perf.volumeScore v)
  have hr := abs_sub_round (Perf.reliabilityScore v)
  rw [abs_le] at hc hv hr
  have : (Perf.performanceScore v tf).overall =
      round ((Perf.consistencyScore v tf + Perf.volumeScore v + Perf.reliabilityScore v) / 3) := rfl
  rw [this]
  apply round_dist_le_one
  have e1 : ((Perf.performanceScore v tf).consistency : ℚ) =
      ((round (Perf.consistencyScore v tf) : ℤ) : ℚ) := rfl
  have e2 : ((Perf.performanceScore v tf).volume : ℚ) =
      ((round (Perf.volumeScore v) : ℤ) : ℚ) := rfl
  have e3 : ((Perf.performanceScore v tf).reliability : ℚ) =
      ((round (Perf.reliabilityScore v) : ℤ) : ℚ) := rfl
  rw [e1, e2, e3, abs_le]
  constructor <;> linarith [hc.1, hc.2, hv.1, hv.2, hr.1, hr.2]

/-- C10: for a row with `avgPaymentTerms ≥ 0` (and a positive window, so the
consistency division is defined), the unrounded performance reliability
sub-score is strictly below 130 — `max 0 (130 - avgPaymentTerms)` for positive
terms, 50 for zero terms — and the overall performance score never exceeds
110 even though reliability has no explicit upper clamp. -/
theorem c10_reliability_bound (v : Perf.VendorAggregate) (tf : ℕ)
    (hapt : 0 ≤ v.avg_payment_terms) (htf : 0 < tf) :
    Perf.reliabilityScore v < 130 ∧
    (0 < v.avg_payment_terms → Perf.reliabilityScore v = max 0 (130 - v.avg_payment_terms)) ∧
    (v.avg_payment_terms = 0 → Perf.reliabilityScore v = 50) ∧
    Perf.overallScore v tf ≤ 110 := by
  have hrel : Perf.reliabilityScore v < 130 := by
    rw [Perf.reliabilityScore]
    split_ifs with h
    · rw [max_lt_iff]
      constructor <;> linarith
    · norm_num
  refine ⟨hrel, ?_, ?_, ?_⟩
  · intro h
    rw [Perf.reliabilityScore, if_pos h]
    congr 1
    ring
  · intro h
    rw [Perf.reliabilityScore, if_neg (by rw [h]; exact lt_irrefl 0)]
  · have hc : Perf.consistencyScore v tf ≤ 100 := min_le_left _ _
    have hvs : Perf.volumeScore v ≤ 100 := min_le_left _ _
    rw [Perf.overallScore, round_eq, Int.floor_le_iff]
    push_cast
    linarith

/-- C10 witness: the bounds instantiated at the C1 scenario row with window 12. -/
theorem c10_reliability_bound_witness :
    Perf.reliabilityScore ⟨45, 8, 30.5⟩ < 130 ∧ Perf.overallScore ⟨45, 8, 30.5⟩ 12 ≤ 110 := by
  have h := c10_reliability_bound ⟨45, 8, 30.5⟩ 12 (by norm_num) (by norm_num)
  exact ⟨h.1, h.2.2.2⟩

namespace JS

/-- A JavaScript number as the scoring arithmetic can produce it: a finite
value (kept exact as a rational), one of the two infinities, or NaN. -/
inductive JNum where
  | nan : JNum
  | posInf : JNum
  | negInf : JNum
  | val : ℚ → JNum
deriving DecidableEq

/-- JavaScript division `a / b` of finite operands: finite quotient for a
nonzero divisor; `0/0` is NaN and `a/0` is a signed infinity. -/
def jsDiv (a b : ℚ) : JNum :=
  if b = 0 then (if a = 0 then .nan else if 0 < a then .posInf else .negInf)
  else .val (a / b)

/-- Multiplication by the literal 100, as applied to the quotient. -/
def jsMul100 : JNum → JNum
  | .nan => .nan
  | .posInf => .posInf
  | .negInf => .negInf
  | .val q => .val (q * 100)

/-- `Math.min(c, x)` for a finite first argument: NaN propagates, positive
infinity loses to `c`, negative infinity wins. -/
def jsMin (c : ℚ) : JNum → JNum
  | .nan => .nan
  | .posInf => .val c
  | .negInf => .negInf
  | .val q => .val (min c q)

/-- The inline normalizer pattern `Math.min(100, (rawValue / referenceScale)
* 100)` shared by `consistencyScore`, `volumeScore` and `exposureRisk`: the
code applies no `max(0, _)` lower clamp and no zero-scale guard. -/
def normalize (rawValue referenceScale : ℚ) : JNum :=
  jsMin 100 (jsMul100 (jsDiv rawValue referenceScale))

/-- The consistency sub-score with JavaScript number semantics:
`Math.min(100, (active_months / timeframe) * 100)` with no guard on
`timeframe = 0`. -/
def consistencyScoreJS (active_months timeframe : ℕ) : JNum :=
  normalize (active_months : ℚ) (timeframe : ℚ)

/-- On a nonzero reference scale the JavaScript evaluation is the finite
clamped ratio, i.e. the rational-arithmetic model used elsewhere. -/
lemma normalize_of_ne_zero (x s : ℚ) (hs : s ≠ 0) :
    normalize x s = .val (min 100 (x / s * 100)) := by
  rw [normalize, jsDiv, if_neg hs, jsMul100, jsMin]

end JS

/-- C2 counterexample: the claim says the consistency sub-score is 0 when
`windowMonths = 0`; the code has no zero-scale guard, so with one active
month and a zero window it evaluates `1 / 0 = Infinity` and
`Math.min(100, Infinity) = 100`, not 0. -/
theorem c2_counterexample :
    JS.consistencyScoreJS 1 0 = JS.JNum.val 100 ∧
    JS.consistencyScoreJS 1 0 ≠ JS.JNum.val 0 := by
  constructor <;>
    norm_num [JS.consistencyScoreJS, JS.normalize, JS.jsDiv, JS.jsMul100, JS.jsMin]

/-- C2 amended: for `x ≥ 0` and `s > 0` the inline normalizer is finite and
lies in [0,100]; but there is no zero-scale guard, so `normalize(x, 0)` is
100 for `x > 0` (Infinity clamped by the min) and NaN for `x = 0`, and the
consistency sub-score at `windowMonths = 0` with at least one active month
is 100, not 0. -/
theorem c2_amended (x s : ℚ) (hx : 0 ≤ x) (hs : 0 < s) :
    (∃ q : ℚ, JS.normalize x s = JS.JNum.val q ∧ 0 ≤ q ∧ q ≤ 100) ∧
    (0 < x → JS.normalize x 0 = JS.JNum.val 100) ∧
    JS.normalize 0 0 = JS.JNum.nan ∧
    (∀ am : ℕ, 0 < am → JS.consistencyScoreJS am 0 = JS.JNum.val 100) := by
  refine ⟨?_, ?_, ?_, ?_⟩
  · refine ⟨min 100 (x / s * 100), JS.normalize_of_ne_zero x s hs.ne', ?_, min_le_left _ _⟩
    have : 0 ≤ x / s * 100 := by positivity
    exact le_min (by norm_num) this
  · intro hx0
    rw [JS.normalize, JS.jsDiv, if_pos rfl, if_neg hx0.ne', if_pos hx0]
    rfl
  · rw [JS.normalize, JS.jsDiv, if_pos rfl, if_pos rfl]
    rfl
  · intro am ham
    have ham' : (0 : ℚ) < (am : ℚ) := by exact_mod_cast ham
    rw [JS.consistencyScoreJS, Nat.cast_zero, JS.normalize, JS.jsDiv, if_pos rfl,
      if_neg ham'.ne', if_pos ham']
    rfl

/-- C2 witness: the amended normalizer facts at `x = 8`, `s = 12`. -/
theorem c2_amended_witness :
    (0 : ℚ) ≤ 8 ∧ (0 : ℚ) < 12 ∧
    (∃ q : ℚ, JS.normalize 8 12 = JS.JNum.val q ∧ 0 ≤ q ∧ q ≤ 100) := by
  exact ⟨by norm_num, by norm_num, (c2_amended 8 12 (by norm_num) (by norm_num)).1⟩

namespace Risk

/-- One row of the `risk-assessment` SQL result (the numeric fields the risk
math reads). -/
structure RiskAggregate where
  total_invoices : ℕ
  total_exposure : ℚ
  avg_invoice_value : ℚ
  invoice_variability : ℚ
  late_invoices : ℕ
  overdue_payments : ℕ
deriving DecidableEq

/-- `totalInvoices > 0 ? (vendor.late_invoices / totalInvoices) * 100 : 0`. -/
def lateInvoiceRate (r : RiskAggregate) : ℚ :=
  if 0 < r.total_invoices then (r.late_invoices : ℚ) / (r.total_invoices : ℚ) * 100 else 0

/-- `totalInvoices > 0 ? (vendor.overdue_payments / totalInvoices) * 100 : 0`. -/
def overdueRate (r : RiskAggregate) : ℚ :=
  if 0 < r.total_invoices then (r.overdue_payments : ℚ) / (r.total_invoices : ℚ) * 100 else 0

/-- `Math.min(100, (totalExposure / 1000000) * 100)`. -/
def exposureRisk (r : RiskAggregate) : ℚ :=
  min 100 (r.total_exposure / 1000000 * 100)

/-- `avgInvoiceValue > 0 ? Math.min(100, (invoiceVariability / avgInvoiceValue) * 100) : 0`. -/
def variabilityRisk (r : RiskAggregate) : ℚ :=
  if 0 < r.avg_invoice_value then min 100 (r.invoice_variability / r.avg_invoice_value * 100)
  else 0

/-- `Math.min(100, lateInvoiceRate * 2)`. -/
def timelinessRisk (r : RiskAggregate) : ℚ :=
  min 100 (lateInvoiceRate r * 2)

/-- `Math.min(100, overdueRate * 3)`. -/
def paymentRisk (r : RiskAggregate) : ℚ :=
  min 100 (overdueRate r * 3)

/-- `Math.round(exposureRisk * 0.3 + variabilityRisk * 0.2 + timelinessRisk * 0.25 + paymentRisk * 0.25)`. -/
def overallRisk (r : RiskAggregate) : ℤ :=
  round (exposureRisk r * (3 / 10) + variabilityRisk r * (1 / 5) +
    timelinessRisk r * (1 / 4) + paymentRisk r * (1 / 4))

/-- `let riskCategory = 'Low'; if (overallRisk > 70) 'High'; else if (overallRisk > 40) 'Medium'`. -/
def riskCategory (overall : ℤ) : String :=
  if 70 < overall then "High" else if 40 < overall then "Medium" else "Low"

/-- The `riskScores` object of one response row. -/
structure RiskScores where
  overall : ℤ
  exposure : ℤ
  variability : ℤ
  timeliness : ℤ
  payment : ℤ
deriving DecidableEq

/-- The response-row fields the metadata reads. -/
structure RiskRow where
  riskScores : RiskScores
  riskCategory : String
deriving DecidableEq

/-- The row the `risk-assessment` handler builds for one aggregate row. -/
def riskRowOf (r : RiskAggregate) : RiskRow :=
  { riskScores :=
      { overall := overallRisk r
        exposure := round (exposureRisk r)
        variability := round (variabilityRisk r)
        timeliness := round (timelinessRisk r)
        payment := round (paymentRisk r) }
    riskCategory := riskCategory (overallRisk r) }

/-- The `data` array of the `risk-assessment` response. -/
def riskData (aggs : List RiskAggregate) : List RiskRow :=
  aggs.map riskRowOf

/-- `riskData.filter(v => v.riskCategory === 'High').length`. -/
def highCount (rows : List RiskRow) : ℕ :=
  (rows.filter (fun v => v.riskCategory == "High")).length

/-- `riskData.filter(v => v.riskCategory === 'Medium').length`. -/
def mediumCount (rows : List RiskRow) : ℕ :=
  (rows.filter (fun v => v.riskCategory == "Medium")).length

/-- `riskData.filter(v => v.riskCategory === 'Low').length`. -/
def lowCount (rows : List RiskRow) : ℕ :=
  (rows.filter (fun v => v.riskCategory == "Low")).length

/-- `metadata.totalVendors = riskData.length`. -/
def totalVendors (rows : List RiskRow) : ℕ := rows.length

/-- The category derivation always lands in one of the three labels. -/
lemma riskCategory_trichotomy (o : ℤ) :
    riskCategory o = "High" ∨ riskCategory o = "Medium" ∨ riskCategory o = "Low" := by
  rw [riskCategory]
  split_ifs <;> simp

end Risk

/-- C4: for a risk aggregate row with nonnegative exposure and variability,
the overall risk score is the rounded fixed convex combination (weights
0.3 / 0.2 / 0.25 / 0.25) of the four sub-risks, each sub-risk lies in
[0,100], and consequently the overall lies in [0,100]. -/
theorem c4_overall_risk (r : Risk.RiskAggregate)
    (hexp : 0 ≤ r.total_exposure) (hvar : 0 ≤ r.invoice_variability) :
    Risk.overallRisk r = round (Risk.exposureRisk r * (3 / 10) + Risk.variabilityRisk r * (1 / 5) +
      Risk.timelinessRisk r * (1 / 4) + Risk.paymentRisk r * (1 / 4)) ∧
    (0 ≤ Risk.exposureRisk r ∧ Risk.exposureRisk r ≤ 100) ∧
    (0 ≤ Risk.variabilityRisk r ∧ Risk.variabilityRisk r ≤ 100) ∧
    (0 ≤ Risk.timelinessRisk r ∧ Risk.timelinessRisk r ≤ 100) ∧
    (0 ≤ Risk.paymentRisk r ∧ Risk.paymentRisk r ≤ 100) ∧
    (0 ≤ Risk.overallRisk r ∧ Risk.overallRisk r ≤ 100) := by
  have hlate : 0 ≤ Risk.lateInvoiceRate r := by
    rw [Risk.lateInvoiceRate]
    split_ifs with h
    · positivity
    · exact le_refl 0
  have hover : 0 ≤ Risk.overdueRate r := by
    rw [Risk.overdueRate]
    split_ifs with h
    · positivity
    · exact le_refl 0
  have he : 0 ≤ Risk.exposureRisk r ∧ Risk.exposureRisk r ≤ 100 := by
    refine ⟨le_min (by norm_num) (by positivity), min_le_left _ _⟩
  have hv : 0 ≤ Risk.variabilityRisk r ∧ Risk.variabilityRisk r ≤ 100 := by
    rw [Risk.variabilityRisk]
    split_ifs with h
    · exact ⟨le_min (by norm_num) (by positivity), min_le_left _ _⟩
    · exact ⟨le_refl 0, by norm_num⟩
  have ht : 0 ≤ Risk.timelinessRisk r ∧ Risk.timelinessRisk r ≤ 100 := by
    exact ⟨le_min (by norm_num) (by positivity), min_le_left _ _⟩
  have hp : 0 ≤ Risk.paymentRisk r ∧ Risk.paymentRisk r ≤ 100 := by
    exact ⟨le_min (by norm_num) (by positivity), min_le_left _ _⟩
  refine ⟨rfl, he, hv, ht, hp, ?_, ?_⟩
  · rw [Risk.overallRisk, round_eq]
    rw [Int.le_floor]
    push_cast
    nlinarith [he.1, hv.1, ht.1, hp.1]
  · rw [Risk.overallRisk, round_eq, Int.floor_le_iff]
    push_cast
    nlinarith [he.2, hv.2, ht.2, hp.2]

/-- C4 witness: the bounds at the concrete row with 10 invoices, 500000
exposure, average value 100, variability 50, 2 late invoices and 1 overdue
payment. -/
theorem c4_overall_risk_witness :
    (0 : ℚ) ≤ 500000 ∧ (0 : ℚ) ≤ 50 ∧
    0 ≤ Risk.overallRisk ⟨10, 500000, 100, 50, 2, 1⟩ ∧
    Risk.overallRisk ⟨10, 500000, 100, 50, 2, 1⟩ ≤ 100 := by
  have h := c4_overall_risk ⟨10, 500000, 100, 50, 2, 1⟩ (by norm_num) (by norm_num)
  exact ⟨by norm_num, by norm_num, h.2.2.2.2.2.1, h.2.2.2.2.2.2⟩

/-- C5: the risk category is derived from the overall score by strict
comparisons — High exactly above 70, Medium exactly on (40, 70], Low exactly
at or below 40 — so 70 maps to Medium, 71 to High, 40 to Low and 41 to
Medium. -/
theorem c5_risk_category (o : ℤ) :
    (Risk.riskCategory o = "High" ↔ 70 < o) ∧
    (Risk.riskCategory o = "Medium" ↔ 40 < o ∧ o ≤ 70) ∧
    (Risk.riskCategory o = "Low" ↔ o ≤ 40) ∧
    Risk.riskCategory 70 = "Medium" ∧ Risk.riskCategory 71 = "High" ∧
    Risk.riskCategory 40 = "Low" ∧ Risk.riskCategory 41 = "Medium" := by
  refine ⟨?_, ?_, ?_, by decide, by decide, by decide, by decide⟩ <;>
    · rw [Risk.riskCategory]
      split_ifs with h1 h2 <;> simp_all <;> omega

/-- C9: every vendor row of a risk-assessment response carries exactly one of
the categories High / Medium / Low, so the metadata's riskDistribution counts
sum to `totalVendors`, which is the length of the data array. -/
theorem c9_risk_distribution (aggs : List Risk.RiskAggregate) :
    Risk.highCount (Risk.riskData aggs) + Risk.mediumCount (Risk.riskData aggs) +
      Risk.lowCount (Risk.riskData aggs) = Risk.totalVendors (Risk.riskData aggs) ∧
    Risk.totalVendors (Risk.riskData aggs) = (Risk.riskData aggs).length := by
  refine ⟨?_, rfl⟩
  induction aggs with
  | nil => rfl
  | cons a t ih =>
    have hcat : (Risk.riskRowOf a).riskCategory = Risk.riskCategory (Risk.overallRisk a) := rfl
    simp only [Risk.riskData, List.map_cons, Risk.highCount, Risk.mediumCount, Risk.lowCount,
      Risk.totalVendors, List.filter_cons, List.length_cons] at ih ⊢
    rcases Risk.riskCategory_trichotomy (Risk.overallRisk a) with h | h | h
    · rw [hcat.trans h, if_pos (by decide : (("High" : String) == "High") = true),
        if_neg (by decide : ¬ (("High" : String) == "Medium") = true),
        if_neg (by decide : ¬ (("High" : String) == "Low") = true)]
      simp only [List.length_cons]
      omega
    · rw [hcat.trans h, if_neg (by decide : ¬ (("Medium" : String) == "High") = true),
        if_pos (by decide : (("Medium" : String) == "Medium") = true),
        if_neg (by decide : ¬ (("Medium" : String) == "Low") = true)]
      simp only [List.length_cons]
      omega
    · rw [hcat.trans h, if_neg (by decide : ¬ (("Low" : String) == "High") = true),
        if_neg (by decide : ¬ (("Low" : String) == "Medium") = true),
        if_pos (by decide : (("Low" : String) == "Low") = true)]
      simp only [List.length_cons]
      omega

namespace PaymentRel

/-- One row of the `payment-reliability` SQL result (the counts the
reliability math reads). -/
structure PaymentAggregate where
  payment_records : ℕ
  overdue_count : ℕ
  discount_eligible : ℕ
deriving DecidableEq

/-- `vendor.payment_records > 0 ? (vendor.overdue_count / vendor.payment_records) * 100 : 0`. -/
def overdueRate (p : PaymentAggregate) : ℚ :=
  if 0 < p.payment_records then (p.overdue_count : ℚ) / (p.payment_records : ℚ) * 100 else 0

/-- `vendor.payment_records > 0 ? (vendor.discount_eligible / vendor.payment_records) * 100 : 0`. -/
def discountUtilization (p : PaymentAggregate) : ℚ :=
  if 0 < p.payment_records then (p.discount_eligible : ℚ) / (p.payment_records : ℚ) * 100 else 0

/-- `Math.max(0, 100 - (overdueRate * 2))`, before the final rounding. -/
def reliabilityScoreRaw (p : PaymentAggregate) : ℚ :=
  max 0 (100 - overdueRate p * 2)

/-- The reported `reliabilityScore: Math.round(reliabilityScore)`. -/
def reliabilityScore (p : PaymentAggregate) : ℤ :=
  round (reliabilityScoreRaw p)

end PaymentRel

/-- C6: the overdue rate is the overdue share times 100 when there are
payment records and 0 otherwise, the reliability score is
`round(max(0, 100 - overdueRate * 2))`, and on the two scenario rows
(0 of 10 overdue; 5 of 10 overdue) the rate / score are 0 / 100 and 50 / 0. -/
theorem c6_payment_reliability (oc pr de : ℕ) :
    PaymentRel.overdueRate ⟨pr, oc, de⟩ =
      (if 0 < pr then (oc : ℚ) / (pr : ℚ) * 100 else 0) ∧
    PaymentRel.reliabilityScore ⟨pr, oc, de⟩ =
      round (max 0 (100 - PaymentRel.overdueRate ⟨pr, oc, de⟩ * 2)) ∧
    PaymentRel.overdueRate ⟨10, 0, 0⟩ = 0 ∧
    PaymentRel.reliabilityScore ⟨10, 0, 0⟩ = 100 ∧
    PaymentRel.overdueRate ⟨10, 5, 0⟩ = 50 ∧
    PaymentRel.reliabilityScore ⟨10, 5, 0⟩ = 0 := by
  refine ⟨rfl, rfl, ?_, ?_, ?_, ?_⟩ <;>
    norm_num [PaymentRel.overdueRate, PaymentRel.reliabilityScore,
      PaymentRel.reliabilityScoreRaw, max_def, round_eq]

namespace Trends

/-- One trend point of one vendor: a `(vendor, month)` aggregate row as pushed
into `trendsByVendor` (the `avgInvoiceValue` pass-through field is omitted). -/
structure TrendPoint where
  month : ℕ
  invoiceCount : ℕ
  monthlySpend : ℚ
deriving DecidableEq

/-- `sortedTrends.slice(-3)`: the last (up to) 3 monthly points. -/
def recentOf (l : List TrendPoint) : List TrendPoint :=
  l.drop (l.length - 3)

/-- `sortedTrends.slice(-6, -3)`: the (up to) 3 monthly points before those. -/
def previousOf (l : List TrendPoint) : List TrendPoint :=
  (l.drop (l.length - 6)).take (l.length - 3 - (l.length - 6))

/-- `reduce((sum, t) => sum + t.monthlySpend, 0)`. -/
def spendSum (l : List TrendPoint) : ℚ :=
  (l.map (fun t => t.monthlySpend)).sum

/-- `recent.reduce(..) / recent.length`. -/
def recentAvg (l : List TrendPoint) : ℚ :=
  spendSum (recentOf l) / ((recentOf l).length : ℚ)

/-- `previous.length > 0 ? previous.reduce(..) / previous.length : recentAvg`. -/
def previousAvg (l : List TrendPoint) : ℚ :=
  if 0 < (previousOf l).length then spendSum (previousOf l) / ((previousOf l).length : ℚ)
  else recentAvg l

/-- `previousAvg > 0 ? ((recentAvg - previousAvg) / previousAvg) * 100 : 0`. -/
def growthRateRaw (l : List TrendPoint) : ℚ :=
  if 0 < previousAvg l then ((recentAvg l - previousAvg l) / previousAvg l) * 100 else 0

/-- The reported `growthRate: Math.round(growthRate * 100) / 100`. -/
def growthRate (l : List TrendPoint) : ℚ :=
  round2 (growthRateRaw l)

end Trends

/-- C7: for a nonempty vendor trend sequence sorted ascending by month, the
reported growth rate is the two-decimal rounding of
`((recentAvg - previousAvg) / previousAvg) * 100` when `previousAvg > 0` and
of 0 otherwise; when the previous window is empty the fallback
`previousAvg = recentAvg` forces a growth rate of exactly 0, and on the
single-point sequence with monthly spend 100 the growth rate is 0. -/
theorem c7_growth_rate (l : List Trends.TrendPoint) (hl : l ≠ []) :
    Trends.growthRate l = round2 (if 0 < Trends.previousAvg l then
      ((Trends.recentAvg l - Trends.previousAvg l) / Trends.previousAvg l) * 100 else 0) ∧
    (Trends.previousOf l = [] → Trends.growthRate l = 0) ∧
    Trends.growthRate [⟨1, 1, 100⟩] = 0 := by
  refine ⟨rfl, ?_, ?_⟩
  · intro hprev
    have hpa : Trends.previousAvg l = Trends.recentAvg l := by
      rw [Trends.previousAvg, hprev]
      simp
    rw [Trends.growthRate, Trends.growthRateRaw, hpa]
    split_ifs with h
    · simp [round2]
    · simp [round2]
  · norm_num [Trends.growthRate, Trends.growthRateRaw, Trends.previousAvg, Trends.recentAvg,
      Trends.previousOf, Trends.recentOf, Trends.spendSum, round2]

/-- C7 witness: the growth rate of the single-point sequence
`[{month := 1, invoiceCount := 1, monthlySpend := 100}]` is 0. -/
theorem c7_growth_rate_witness :
    ([⟨1, 1, 100⟩] : List Trends.TrendPoint) ≠ [] ∧
    Trends.growthRate [⟨1, 1, 100⟩] = 0 := by
  refine ⟨by simp, (c7_growth_rate [⟨1, 1, 100⟩] (by simp)).2.2⟩

/-- JavaScript `Array.prototype.slice(start, stop)` on a list: negative
indices count from the end, indices are clamped to `[0, length]`, and the
elements from the normalized start (inclusive) to the normalized stop
(exclusive) are returned.  The `category-analysis` handler truncates its
sorted vendor list with `.slice(0, parseInt(limit))`. -/
def jsSlice {α : Type} (start stop : ℤ) (l : List α) : List α :=
  let s : ℕ := if start < 0 then ((l.length : ℤ) + start).toNat else min start.toNat l.length
  let e : ℕ := if stop < 0 then ((l.length : ℤ) + stop).toNat else min stop.toNat l.length
  (l.drop s).take (e - s)

/-- C8 counterexample: a negative limit does not yield an empty data array —
`slice(0, -1)` on a two-row list keeps the first row, so the guarantee
"limit ≤ 0 yields an empty data array" fails at limit = -1. -/
theorem c8_counterexample :
    (-1 : ℤ) ≤ 0 ∧ jsSlice 0 (-1) [(1 : ℤ), 2] = [1] ∧
    jsSlice 0 (-1) [(1 : ℤ), 2] ≠ [] := by
  refine ⟨by norm_num, ?_, ?_⟩ <;> decide

/-- C8 amended: the truncation `slice(0, limit)` never returns more rows than
available, its output is an initial segment of the input (so the input
ordering is preserved), and limit = 0 yields an empty data array without
crashing; a negative limit, however, drops rows from the end instead of
yielding an empty array. -/
theorem c8_slice_bounds {α : Type} (l : List α) (limit : ℤ) :
    (jsSlice 0 limit l).length ≤ l.length ∧
    jsSlice 0 limit l <+: l ∧
    jsSlice 0 (0 : ℤ) l = [] := by
  have hs : jsSlice 0 limit l =
      l.take (if limit < 0 then ((l.length : ℤ) + limit).toNat else min limit.toNat l.length) := by
    rw [jsSlice]
    norm_num
  refine ⟨?_, ?_, ?_⟩
  · rw [hs]
    simp
  · rw [hs]
    exact ⟨l.drop _, List.take_append_drop _ l⟩
  · rw [jsSlice]
    norm_num
